import Mathlib

/-!
Verification development for the `oxyfloat` package (`oxyfloat/OxyFloat.py`),
a cache-and-fetch pipeline over Argo profiling-float data.  The Python class
`OxyFloat` is shallowly embedded: pandas `DataFrame`s become association
lists of named columns, the HDF store becomes an association list from
normalized keys to tables, network reads become explicit `Except` parameters,
and Python exceptions become `Except` error values.
-/

namespace OxyFloat

/-- Python exceptions that escape the embedded functions:
`KeyError` (HDF-store miss, missing DataFrame column) and the package's
`RequiredVariableNotPresent`. -/
inductive PyErr where
  | keyError
  | requiredVariableNotPresent
  deriving DecidableEq, Repr

deriving instance DecidableEq for Except

/-- A variable (column) name. -/
abbrev VarName := String

/-- A pandas `DataFrame` column: one cell per row, `none` is NaN. -/
abbrev Col := List (Option Int)

/-- A pandas `DataFrame`: named columns in insertion order.
`pd.DataFrame()` is `[]`. -/
abbrev Table := List (VarName × Col)

/-- Lookup of the first entry under a key in an association list, the
mapping access underlying both `store[name]` and `df[v]`. -/
def assocLookup {κ τ : Type} [BEq κ] : κ → List (κ × τ) → Option τ
  | _, [] => none
  | a, (k, v) :: es => if a == k then some v else assocLookup a es

/-- Column access `df[v]`: `KeyError` when the column is absent. -/
def Table.col (df : Table) (v : VarName) : Option Col :=
  assocLookup v df

/-- The local HDF store (`pd.HDFStore`): entries named by key strings. -/
abbrev Store (τ : Type) := List (List Char × τ)

/-- Embedding of `_put_df(df, name)`: save under `name`, overwriting any prior entry. -/
def putDf {τ : Type} (store : Store τ) (df : τ) (name : List Char) : Store τ :=
  (name, df) :: store.filter (fun p => p.1 ≠ name)

/-- Embedding of `_get_df(name)`: fetch the entry under `name`, raising `KeyError`
(re-raised unchanged by the `except KeyError: raise` block) when absent. -/
def getDf {τ : Type} (store : Store τ) (name : List Char) : Except PyErr τ :=
  match assocLookup name store with
  | none => .error .keyError
  | some df => .ok df

/-- Characters kept by `_url_to_naturalname`: the complement of the
`[^a-zA-Z0-9_]` pattern that `regex.sub('', url)` deletes. -/
def allowedChar (c : Char) : Bool :=
  ('a' ≤ c && c ≤ 'z') || ('A' ≤ c && c ≤ 'Z') || ('0' ≤ c && c ≤ '9') || c == '_'

/-- Embedding of `_url_to_naturalname(url)`: delete every character matching
`[^a-zA-Z0-9_]` (each disallowed character is substituted by the empty
string, left to right). -/
def urlToNaturalname : List Char → List Char
  | [] => []
  | c :: cs => if allowedChar c then c :: urlToNaturalname cs else urlToNaturalname cs

/-- One row of the Argo status table (`argo_all.txt`), with the columns
`get_oxy_floats_from_status` queries. -/
structure StatusRow where
  WMO : Int
  OXYGEN : Int
  GREYLIST : Int
  AGE : Int
  deriving DecidableEq, Repr

/-- The predicate of the `df.query` string
`'(OXYGEN == 1) & (GREYLIST == 0) & (AGE != 0) & (AGE >= age_gte)'`. -/
def statusPred (age_gte : Int) (r : StatusRow) : Bool :=
  decide (r.OXYGEN = 1 ∧ r.GREYLIST = 0 ∧ r.AGE ≠ 0 ∧ r.AGE ≥ age_gte)

/-- Embedding of `get_oxy_floats_from_status(age_gte)`: filter the status table by the
query and return the `WMO` column as a list. -/
def get_oxy_floats_from_status (df : List StatusRow) (age_gte : Int) : List Int :=
  (df.filter (statusPred age_gte)).map (fun r => r.WMO)

/-- Outcome of extracting `pd.Series(ds[v].values[0], index=indices)` for one
variable `v` from an open dataset: a column of values, a `KeyError`, or a
`pydap.exceptions.ServerError`. -/
inductive ExtractResult where
  | ok (col : Col)
  | keyError
  | serverError
  deriving DecidableEq, Repr

/-- A remote profile dataset as `xray.open_dataset(url)` exposes it:
the set of variable names in `ds.keys()`, and the outcome of extracting
each variable's value series. -/
structure Dataset where
  keys : List VarName
  extract : VarName → ExtractResult

/-- Python set symmetric difference `self.variables ^ self._coordinates`,
over the embedding of the two sets as lists. -/
def symmDiff (a b : List VarName) : List VarName :=
  a.filter (fun v => decide (v ∉ b)) ++ b.filter (fun v => decide (v ∉ a))

/-- Embedding of `_profile_to_dataframe(wmo, url)`: raise `RequiredVariableNotPresent` if
any configured variable is absent from the dataset's keys; otherwise build a
DataFrame with one column per non-coordinate variable whose extraction
succeeds — an extraction `KeyError` or `ServerError` is logged and the
column simply omitted. -/
def profileToDataframe (vars coords : List VarName) (ds : Dataset) :
    Except PyErr Table :=
  if vars.all (fun v => decide (v ∈ ds.keys)) then
    .ok ((symmDiff vars coords).foldl
      (fun df v =>
        match ds.extract v with
        | .ok col => df ++ [(v, col)]
        | .keyError => df
        | .serverError => df) [])
  else
    .error .requiredVariableNotPresent

/-- Pandas `series.dropna()`: the non-NaN cells of a column. -/
def dropna (col : Col) : List Int :=
  col.filterMap (fun x => x)

/-- Embedding of `_validate_oxygen(df, url)`: the access `df['DOXY_ADJUSTED']` raises `KeyError` when
the column is absent; otherwise the profile's DataFrame is replaced by an
empty one when the column drops to nothing, and passed through unchanged
otherwise. -/
def validateOxygen (df : Table) : Except PyErr Table :=
  match Table.col df "DOXY_ADJUSTED" with
  | none => .error .keyError
  | some col => if (dropna col).isEmpty then .ok ([] : Table) else .ok df

/-- Embedding of `_save_profile(url, count, opendap_urls, wmo, key)`: transform the
profile and, when oxygen is required, validate it; a
`RequiredVariableNotPresent` from the `try` block degrades to an empty
DataFrame; any other exception (the `KeyError` from `_validate_oxygen`)
propagates before `_put_df` runs.  On the non-raising paths the result is
stored under `key` and returned. -/
def saveProfile (oxygenRequired : Bool) (vars coords : List VarName)
    (ds : Dataset) (store : Store Table) (key : List Char) :
    Except PyErr (Store Table × Table) :=
  let transformed : Except PyErr Table :=
    match profileToDataframe vars coords ds with
    | .ok df => if oxygenRequired then validateOxygen df else .ok df
    | .error e => .error e
  match transformed with
  | .ok df => .ok (putDf store df key, df)
  | .error .requiredVariableNotPresent => .ok (putDf store ([] : Table) key, ([] : Table))
  | .error e => .error e

/-- Membership in the `[0-9]` character class. -/
def charIsDigit (c : Char) : Bool :=
  '0' ≤ c && c ≤ '9'

/-- The decimal number written by a digit run. -/
def digitsToNat (ds : List Char) : Nat :=
  ds.foldl (fun acc c => acc * 10 + (c.toNat - '0'.toNat)) 0

/-- Test `startsWithChars p l`: `l` begins with the characters `p`. -/
def startsWithChars : List Char → List Char → Bool
  | [], _ => true
  | _ :: _, [] => false
  | p :: ps, c :: cs => p == c && startsWithChars ps cs

/-- Embedding of `re.search('max_profiles_([0-9]+)', name)`: the number captured at the
leftmost position where the literal token is followed by at least one digit,
the digit run taken greedily. -/
def findMaxProfilesToken : List Char → Option Nat
  | [] => none
  | c :: cs =>
    if startsWithChars ("max_profiles_".toList) (c :: cs) then
      let ds := ((c :: cs).drop ("max_profiles_".toList).length).takeWhile charIsDigit
      if ds.isEmpty then findMaxProfilesToken cs else some (digitsToNat ds)
    else
      findMaxProfilesToken cs

/-- The constant `_MAX_PROFILES`, the in-practice-unbounded default cap. -/
def MAX_PROFILES : Nat := 10000000000

/-- Embedding of `_get_cache_file_parms(max_profiles)`: when a cache file was requested at
construction and its name carries a `max_profiles_<N>` token, a falsy
(`None`/`0`) or larger requested cap is replaced by `N`; an absent
`cache_file_requested` attribute or a failed regex search raises
`AttributeError`, caught to leave the cap unchanged. -/
def getCacheFileParms (cacheFileRequested : Option (List Char))
    (max_profiles : Option Nat) : Option Nat :=
  match cacheFileRequested with
  | none => max_profiles
  | some name =>
    match findMaxProfilesToken name with
    | none => max_profiles
    | some cacheMax =>
      match max_profiles with
      | none => some cacheMax
      | some mp => if mp = 0 ∨ mp > cacheMax then some cacheMax else some mp

/-- The cap `get_float_dataframe` actually loops with: the adjusted
`max_profiles`, with a falsy value replaced by `_MAX_PROFILES`. -/
def effectiveMaxProfiles (cacheFileRequested : Option (List Char))
    (max_profiles : Option Nat) : Nat :=
  match getCacheFileParms cacheFileRequested max_profiles with
  | none => MAX_PROFILES
  | some 0 => MAX_PROFILES
  | some (n + 1) => n + 1

/-- An element of the THREDDS catalog markup: a tag name and the value of
its `urlpath` attribute when present. -/
structure Element where
  tag : String
  urlpath : Option (List Char)

/-- Connection failure (`requests.exceptions.ConnectionError`). -/
inductive NetErr where
  | connectionError
  deriving DecidableEq, Repr

/-- The `re.compile("nc$")` attribute test: the path ends in `nc`. -/
def endsWithNc (l : List Char) : Bool :=
  startsWithChars ("nc".toList).reverse l.reverse

/-- Embedding of `get_profile_opendap_urls(catalog_url)`: a `ConnectionError` from the
HTTP read is caught, logged, and the empty url list returned; on success
every `<dataset urlpath="...nc">` element is rewritten to an OPeNDAP url
under the `dodsC` service of the catalog's base. -/
def get_profile_opendap_urls (catalog_url : List Char)
    (fetched : Except NetErr (List Element)) : List (List Char) :=
  match fetched with
  | .error _ => []
  | .ok elems =>
    let base := List.intercalate ['/'] ((catalog_url.splitOn '/').take 4) ++
                "/dodsC/".toList
    (elems.filter (fun e =>
        e.tag == "dataset" &&
        (match e.urlpath with
         | some p => endsWithNc p
         | none => false))).map
      (fun e => base ++ e.urlpath.getD [])

/-- The per-profile loop body of `get_float_dataframe` for one float's
catalog: break once the zero-based index exceeds the cap; otherwise
normalize the key, try the cache, and on a miss run `_save_profile`.  An
exception `_save_profile` does not absorb propagates, leaving the store as
it was before that profile. -/
def profileLoop (oxygenRequired : Bool) (vars coords : List VarName)
    (cap : Nat) :
    Nat → List (List Char × Dataset) → Store Table → List Table →
    Store Table × Except PyErr (List Table)
  | _, [], store, acc => (store, .ok acc)
  | i, (url, ds) :: rest, store, acc =>
    if i > cap then (store, .ok acc)
    else
      match getDf store (urlToNaturalname url) with
      | .ok df =>
        profileLoop oxygenRequired vars coords cap (i + 1) rest store
          (acc ++ [df])
      | .error _ =>
        match saveProfile oxygenRequired vars coords ds store
            (urlToNaturalname url) with
        | .ok (store', df) =>
          profileLoop oxygenRequired vars coords cap (i + 1) rest store'
            (acc ++ [df])
        | .error e => (store, .error e)

/-- Embedding of `get_float_dataframe(wmo_list, max_profiles)` for one float's resolved
catalog (`profiles` pairs each OPeNDAP url with the dataset it serves):
adjust the cap from the requested cache file's name, default it to
`_MAX_PROFILES`, then run the per-profile loop from index 0, accumulating
the appended DataFrames. -/
def get_float_dataframe (oxygenRequired : Bool)
    (vars coords : List VarName) (cacheFileRequested : Option (List Char))
    (max_profiles : Option Nat) (profiles : List (List Char × Dataset))
    (store : Store Table) : Store Table × Except PyErr (List Table) :=
  profileLoop oxygenRequired vars coords
    (effectiveMaxProfiles cacheFileRequested max_profiles) 0 profiles store []

/-- The default `variables` tuple of the `OxyFloat` constructor. -/
def defaultVars : List VarName :=
  ["TEMP_ADJUSTED", "PSAL_ADJUSTED", "DOXY_ADJUSTED",
   "PRES_ADJUSTED", "LATITUDE", "LONGITUDE", "JULD"]

/-- The `_coordinates` class attribute. -/
def coordinates : List VarName :=
  ["PRES_ADJUSTED", "LATITUDE", "LONGITUDE", "JULD"]

/-- The four-row status table of the spec's `get_eligible_floats` example. -/
def statusTable : List StatusRow :=
  [⟨1, 1, 0, 340⟩, ⟨2, 0, 0, 500⟩, ⟨3, 1, 1, 500⟩, ⟨4, 1, 0, 0⟩]

/-- A dataset carrying every configured variable whose oxygen extraction
fails with a `pydap` `ServerError` while the other variables carry data. -/
def dsServerErrOxy : Dataset :=
  ⟨defaultVars, fun v => if v == "DOXY_ADJUSTED" then .serverError else .ok [some 1]⟩

/-- A dataset carrying every configured variable whose oxygen column is
entirely NaN while the other variables carry data. -/
def dsAllNullOxy : Dataset :=
  ⟨defaultVars, fun v => if v == "DOXY_ADJUSTED" then .ok [none, none] else .ok [some 3]⟩

/-- A dataset exposing only one of the configured variables. -/
def dsMissingVar : Dataset :=
  ⟨["TEMP_ADJUSTED"], fun _ => .ok [some 1]⟩

/-- The DataFrame `_profile_to_dataframe` builds from `dsServerErrOxy`:
the oxygen column is absent because its extraction was only logged. -/
def dfServerErrOxy : Table :=
  [("TEMP_ADJUSTED", [some 1]), ("PSAL_ADJUSTED", [some 1])]

/-- The DataFrame `_profile_to_dataframe` builds from `dsAllNullOxy`. -/
def dfAllNullOxy : Table :=
  [("TEMP_ADJUSTED", [some 3]), ("PSAL_ADJUSTED", [some 3]),
   ("DOXY_ADJUSTED", [none, none])]

/-- The spec's effective-cap arithmetic, written from the spec's words for
comparison with the code: the minimum of the caps present, `none` meaning
unbounded. -/
def specEffectiveCap (callerCap cacheCap : Option Nat) : Option Nat :=
  match callerCap, cacheCap with
  | none, none => none
  | some a, none => some a
  | none, some b => some b
  | some a, some b => some (min a b)

/-- A requested cache-file name encoding the cap 5. -/
def cacheName : List Char := "oxyfloat_age_340_max_profiles_5.hdf".toList

/-- The cached table a cache-hit locator appends to the merged output. -/
def hitTable (store : Store Table) (url : List Char) : Table :=
  match getDf store (urlToNaturalname url) with
  | .ok df => df
  | .error _ => []

/-- Five catalog locators paired with datasets; the datasets are never
opened when every locator is already cached. -/
def urlsFive : List (List Char × Dataset) :=
  [("u0".toList, dsMissingVar), ("u1".toList, dsMissingVar),
   ("u2".toList, dsMissingVar), ("u3".toList, dsMissingVar),
   ("u4".toList, dsMissingVar)]

/-- A store caching a distinct one-column table for each of the five
locators. -/
def storeFive : Store Table :=
  [("u0".toList, [("TEMP_ADJUSTED", [some 0])]),
   ("u1".toList, [("TEMP_ADJUSTED", [some 1])]),
   ("u2".toList, [("TEMP_ADJUSTED", [some 2])]),
   ("u3".toList, [("TEMP_ADJUSTED", [some 3])]),
   ("u4".toList, [("TEMP_ADJUSTED", [some 4])])]

/-- C6: a catalog url whose HTTP read fails with a connection failure makes
`get_profile_opendap_urls` return the empty sequence; the function is total,
so the failure is absorbed rather than raised and cannot abort the batch. -/
theorem get_profile_opendap_urls_connection_failure
    (catalog_url : List Char) (e : NetErr) :
    get_profile_opendap_urls catalog_url (.error e) = [] := rfl

/-- C7: `_url_to_naturalname` returns its argument with every character
outside the alphanumeric-and-underscore set removed (hence it is a pure
function of the locator, deterministic), and two locators differing only in
one disallowed character are collapsed to the same key. -/
theorem urlToNaturalname_spec (url pre post : List Char) (c : Char) :
    urlToNaturalname url = url.filter allowedChar ∧
    (allowedChar c = false →
      urlToNaturalname (pre ++ c :: post) = urlToNaturalname (pre ++ post)) := by
  have hfilter : ∀ l : List Char, urlToNaturalname l = l.filter allowedChar := by
    intro l
    induction l with
    | nil => rfl
    | cons a as ih =>
      by_cases h : allowedChar a = true
      · simp [urlToNaturalname, h, List.filter_cons, ih]
      · simp [urlToNaturalname, h, List.filter_cons, ih]
  refine ⟨hfilter url, fun hc => ?_⟩
  rw [hfilter, hfilter, List.filter_append, List.filter_append, List.filter_cons, hc]
  simp

/-- Witness for C7 at concrete locators: `a/b` and `ab` collapse to the
same key once the disallowed `/` is removed. -/
theorem urlToNaturalname_spec_witness :
    urlToNaturalname ("a".toList) = ("a".toList).filter allowedChar ∧
    urlToNaturalname ("a".toList ++ '/' :: "b".toList) =
      urlToNaturalname ("a".toList ++ "b".toList) :=
  ⟨(urlToNaturalname_spec ("a".toList) ("a".toList) ("b".toList) '/').1,
   (urlToNaturalname_spec ("a".toList) ("a".toList) ("b".toList) '/').2 (by decide)⟩

/-- C8: `_get_df` on a key absent from the local store fails with the cache
miss error (`KeyError`), never a default table. -/
theorem getDf_absent_keyError {τ : Type} (store : Store τ) (name : List Char)
    (h : ∀ p ∈ store, p.1 ≠ name) : getDf store name = .error .keyError := by
  have hnone : assocLookup name store = none := by
    induction store with
    | nil => rfl
    | cons p rest ih =>
      obtain ⟨k, v⟩ := p
      have hne : k ≠ name := h (k, v) (List.mem_cons_self _ _)
      have hbeq : (name == k) = false :=
        beq_eq_false_iff_ne.mpr (fun heq => hne heq.symm)
      simp only [assocLookup, hbeq, if_false, Bool.false_eq_true]
      exact ih (fun q hq => h q (List.mem_cons_of_mem _ hq))
  simp [getDf, hnone]

/-- Witness for C8: a concrete store holding only the key `a` misses `b`. -/
theorem getDf_absent_keyError_witness :
    getDf ([("a".toList, (5 : Nat))] : Store Nat) ("b".toList) =
      .error .keyError :=
  getDf_absent_keyError _ _ (by decide)

/-- C9: `_put_df` followed by `_get_df` on the same key returns the table
just stored; the put replaces any prior entry under that key, for every
prior store contents. -/
theorem putDf_getDf_roundtrip {τ : Type} (store : Store τ) (df : τ)
    (name : List Char) : getDf (putDf store df name) name = .ok df := by
  simp [putDf, getDf, assocLookup]

/-- C2: `get_oxy_floats_from_status` returns exactly the `WMO` ids of rows
whose oxygen flag is set, greylist flag is clear, and age is nonzero and at
least the `age_gte` argument; on the spec's four-row table with
`age_gte = 340` it returns exactly `[1]`. -/
theorem get_oxy_floats_from_status_spec :
    (∀ (df : List StatusRow) (age_gte w : Int),
      w ∈ get_oxy_floats_from_status df age_gte ↔
        ∃ r ∈ df, r.OXYGEN = 1 ∧ r.GREYLIST = 0 ∧ r.AGE ≠ 0 ∧
          r.AGE ≥ age_gte ∧ r.WMO = w) ∧
    get_oxy_floats_from_status statusTable 340 = [1] := by
  constructor
  · intro df age_gte w
    simp only [get_oxy_floats_from_status, List.mem_map, List.mem_filter,
      statusPred, decide_eq_true_eq]
    constructor
    · rintro ⟨r, ⟨hr, h1, h2, h3, h4⟩, hw⟩
      exact ⟨r, hr, h1, h2, h3, h4, hw⟩
    · rintro ⟨r, hr, h1, h2, h3, h4, hw⟩
      exact ⟨r, ⟨hr, h1, h2, h3, h4⟩, hw⟩
  · decide

/-- C3: a profile dataset missing a configured required variable makes
`_profile_to_dataframe` raise `RequiredVariableNotPresent`, and
`_save_profile` catches it, stores an empty DataFrame under the profile's
key, and returns normally instead of propagating the error. -/
theorem saveProfile_missing_required (oxygenRequired : Bool)
    (vars coords : List VarName) (ds : Dataset) (store : Store Table)
    (key : List Char) (v : VarName) (hv : v ∈ vars) (hk : v ∉ ds.keys) :
    profileToDataframe vars coords ds = .error .requiredVariableNotPresent ∧
    saveProfile oxygenRequired vars coords ds store key =
      .ok (putDf store ([] : Table) key, ([] : Table)) := by
  have hall : vars.all (fun u => decide (u ∈ ds.keys)) = false := by
    rw [List.all_eq_false]
    exact ⟨v, hv, by simpa using hk⟩
  have hp : profileToDataframe vars coords ds =
      .error .requiredVariableNotPresent := by
    simp [profileToDataframe, hall]
  exact ⟨hp, by simp [saveProfile, hp]⟩

/-- Witness for C3: a dataset exposing only `TEMP_ADJUSTED` lacks the
required `DOXY_ADJUSTED`. -/
theorem saveProfile_missing_required_witness :
    profileToDataframe defaultVars coordinates dsMissingVar =
      .error .requiredVariableNotPresent ∧
    saveProfile true defaultVars coordinates dsMissingVar [] ("key0".toList) =
      .ok (putDf [] ([] : Table) ("key0".toList), ([] : Table)) :=
  saveProfile_missing_required true defaultVars coordinates dsMissingVar []
    ("key0".toList) "DOXY_ADJUSTED" (by decide) (by decide)

/-- A column drops to nothing under `dropna` exactly when every cell is
NaN. -/
theorem dropna_isEmpty_eq_all_isNone (col : Col) :
    (dropna col).isEmpty = col.all (fun x => x.isNone) := by
  induction col with
  | nil => rfl
  | cons a as ih =>
    cases a with
    | none => simpa [dropna, List.filterMap_cons] using ih
    | some x => simp [dropna, List.filterMap_cons]

/-- C4 (amended): when oxygen is required and the transformed DataFrame's
oxygen column is present, `_save_profile` stores and returns the empty
DataFrame when that column is entirely null, and passes the DataFrame
through unchanged otherwise.  (The column being entirely absent is not
covered: there `_validate_oxygen` raises `KeyError` instead, see the
counterexample.) -/
theorem saveProfile_oxygen_validation (vars coords : List VarName)
    (ds : Dataset) (store : Store Table) (key : List Char) (df : Table)
    (col : Col) (hdf : profileToDataframe vars coords ds = .ok df)
    (hcol : Table.col df "DOXY_ADJUSTED" = some col) :
    saveProfile true vars coords ds store key =
      (if col.all (fun x => x.isNone)
       then .ok (putDf store ([] : Table) key, ([] : Table))
       else .ok (putDf store df key, df)) := by
  have hval : validateOxygen df =
      (if col.all (fun x => x.isNone) then .ok ([] : Table) else .ok df) := by
    simp [validateOxygen, hcol, dropna_isEmpty_eq_all_isNone]
  by_cases h : col.all (fun x => x.isNone) = true
  · simp [saveProfile, hdf, hval, h]
  · simp [saveProfile, hdf, hval, h]

/-- Witness for C4 at a dataset whose oxygen column is all NaN while the
other variables carry data: the stored and returned DataFrame is empty. -/
theorem saveProfile_oxygen_validation_witness :
    saveProfile true defaultVars coordinates dsAllNullOxy [] ("k1".toList) =
      (if ([none, none] : Col).all (fun x => x.isNone)
       then .ok (putDf [] ([] : Table) ("k1".toList), ([] : Table))
       else .ok (putDf [] dfAllNullOxy ("k1".toList), dfAllNullOxy)) :=
  saveProfile_oxygen_validation defaultVars coordinates dsAllNullOxy []
    ("k1".toList) dfAllNullOxy [none, none] (by rfl) (by rfl)

/-- Counterexample to C4 as stated: a dataset whose oxygen extraction fails
with a server error (only logged) yields a transformed DataFrame with the
oxygen column entirely absent and other variables carrying data; there the
profile's result is not an empty stored table — `_save_profile` raises
`KeyError` and stores nothing. -/
theorem saveProfile_absent_oxygen_cex :
    profileToDataframe defaultVars coordinates dsServerErrOxy =
      .ok dfServerErrOxy ∧
    Table.col dfServerErrOxy "DOXY_ADJUSTED" = none ∧
    dfServerErrOxy ≠ ([] : Table) ∧
    saveProfile true defaultVars coordinates dsServerErrOxy [] ("k2".toList) =
      .error .keyError := by
  refine ⟨by rfl, by rfl, by decide, by rfl⟩

/-- Counterexample to C5 as stated: with the requested cache-file name
encoding the cap 5 and a caller-supplied cap of 0, the code treats the
falsy zero cap as absent and fetches with cap 5, while the stated minimum
of the two caps is 0. -/
theorem effectiveMaxProfiles_cex :
    effectiveMaxProfiles (some cacheName) (some 0) = 5 ∧
    specEffectiveCap (some 0) (findMaxProfilesToken cacheName) = some 0 ∧
    (5 : Nat) ≠ 0 :=
  ⟨by rfl, by rfl, by decide⟩

/-- C5 (amended): a falsy (`None`/zero) caller cap counts as absent, and a
zero cap in the resulting setting falls back to the sentinel; excluding
zeros, the effective cap is the minimum of the caller-supplied cap and the
cap encoded in the requested cache-file name, the present one when only one
is given, and the finite sentinel `_MAX_PROFILES` when neither is given. -/
theorem effectiveMaxProfiles_min (cacheFileRequested : Option (List Char))
    (mp : Option Nat) (hmp : mp ≠ some 0)
    (hcache : cacheFileRequested.bind findMaxProfilesToken ≠ some 0) :
    effectiveMaxProfiles cacheFileRequested mp =
      (specEffectiveCap mp
        (cacheFileRequested.bind findMaxProfilesToken)).getD MAX_PROFILES := by
  cases cacheFileRequested with
  | none =>
    cases mp with
    | none => rfl
    | some m =>
      cases m with
      | zero => exact absurd rfl hmp
      | succ k => rfl
  | some name =>
    have hb : (some name).bind findMaxProfilesToken =
        findMaxProfilesToken name := rfl
    rw [hb] at hcache ⊢
    unfold effectiveMaxProfiles getCacheFileParms
    cases hfind : findMaxProfilesToken name with
    | none =>
      simp only [hfind]
      cases mp with
      | none => rfl
      | some m =>
        cases m with
        | zero => exact absurd rfl hmp
        | succ k => rfl
    | some c =>
      simp only [hfind]
      cases c with
      | zero => exact absurd hfind hcache
      | succ j =>
        cases mp with
        | none => simp [specEffectiveCap]
        | some m =>
          cases m with
          | zero => exact absurd rfl hmp
          | succ k =>
            dsimp only
            by_cases hgt : k + 1 > j + 1
            · rw [if_pos (Or.inr hgt)]
              have hmin : min (k + 1) (j + 1) = j + 1 := by omega
              simp [specEffectiveCap, hmin]
            · have hif : ¬(k + 1 = 0 ∨ k + 1 > j + 1) := by omega
              rw [if_neg hif]
              have hmin : min (k + 1) (j + 1) = k + 1 := by omega
              simp [specEffectiveCap, hmin]

/-- Witness for C5 (amended) at a positive caller cap of 7 against the
encoded cap 5: the effective cap is their minimum, 5. -/
theorem effectiveMaxProfiles_min_witness :
    effectiveMaxProfiles (some cacheName) (some 7) =
      (specEffectiveCap (some 7)
        ((some cacheName).bind findMaxProfilesToken)).getD MAX_PROFILES :=
  effectiveMaxProfiles_min (some cacheName) (some 7) (by decide) (by decide)

/-- On an all-hit store, the per-profile loop started at index `i` appends
exactly the cached tables of the first `cap + 1 - i` locators and leaves
the store unchanged. -/
theorem profileLoop_all_hits (oxygenRequired : Bool)
    (vars coords : List VarName) (cap : Nat)
    (profiles : List (List Char × Dataset)) (store : Store Table) :
    ∀ (i : Nat) (acc : List Table),
      (∀ p ∈ profiles, getDf store (urlToNaturalname p.1) =
        .ok (hitTable store p.1)) →
      profileLoop oxygenRequired vars coords cap i profiles store acc =
        (store, .ok (acc ++ (profiles.take (cap + 1 - i)).map
          (fun p => hitTable store p.1))) := by
  induction profiles with
  | nil => intro i acc _; simp [profileLoop]
  | cons p rest ih =>
    intro i acc h
    obtain ⟨url, ds⟩ := p
    have hhit := h (url, ds) (List.mem_cons_self _ _)
    by_cases hi : i > cap
    · have h0 : cap + 1 - i = 0 := by omega
      simp [profileLoop, hi, h0]
    · have hstep : cap + 1 - i = (cap + 1 - (i + 1)) + 1 := by omega
      rw [hstep]
      simp only [profileLoop, hi, if_false]
      rw [hhit]
      dsimp only
      rw [ih (i + 1) (acc ++ [hitTable store url])
        (fun q hq => h q (List.mem_cons_of_mem _ hq))]
      simp

/-- C1: with a positive caller cap, no requested cache file, and every
locator of the float's catalog already cached, `get_float_dataframe`
processes the locator at every zero-based index up to and including the
cap value: the merged output is the cached tables of the first `cap + 1`
locators, not `cap`. -/
theorem get_float_dataframe_inclusive_cap (oxygenRequired : Bool)
    (vars coords : List VarName) (cap : Nat)
    (profiles : List (List Char × Dataset)) (store : Store Table)
    (hcap : cap ≠ 0)
    (h : ∀ p ∈ profiles, getDf store (urlToNaturalname p.1) =
      .ok (hitTable store p.1)) :
    get_float_dataframe oxygenRequired vars coords none (some cap) profiles
        store =
      (store, .ok ((profiles.take (cap + 1)).map
        (fun p => hitTable store p.1))) := by
  have he : effectiveMaxProfiles none (some cap) = cap := by
    cases cap with
    | zero => exact absurd rfl hcap
    | succ k => rfl
  unfold get_float_dataframe
  rw [he, profileLoop_all_hits oxygenRequired vars coords cap profiles store
    0 [] h]
  simp

/-- Witness for C1: `max_profiles = 2` against a catalog of five cached
locators yields exactly the three tables at indices 0, 1 and 2. -/
theorem get_float_dataframe_inclusive_cap_witness :
    get_float_dataframe false defaultVars coordinates none (some 2) urlsFive
        storeFive =
      (storeFive, .ok ((urlsFive.take (2 + 1)).map
        (fun p => hitTable storeFive p.1))) ∧
    ((urlsFive.take (2 + 1)).map (fun p => hitTable storeFive p.1)).length
        = 3 :=
  ⟨get_float_dataframe_inclusive_cap false defaultVars coordinates 2 urlsFive
      storeFive (by decide) (by decide), by decide⟩

/-- C10: when oxygen is required there is an input on which the batch does
not degrade to an empty cached entry: a profile whose oxygen variable is
present in the dataset but whose value extraction fails with a server
error (only logged) yields a transformed DataFrame without the oxygen
column, oxygen validation raises a `KeyError` that `_save_profile` does
not catch, and `get_float_dataframe` aborts with the error, storing no
entry for that profile. -/
theorem get_float_dataframe_absent_oxygen_aborts :
    dsServerErrOxy.extract "DOXY_ADJUSTED" = .serverError ∧
    "DOXY_ADJUSTED" ∈ dsServerErrOxy.keys ∧
    get_float_dataframe true defaultVars coordinates none (some 5)
      [("u0".toList, dsServerErrOxy)] [] = ([], .error .keyError) :=
  ⟨by rfl, by decide, by rfl⟩

end OxyFloat
